import Mathlib

/-!
Verification of the NexVue hazard-detection dashboard (React single-page app,
`App.tsx`).  The component's session state, event handlers and effects are
shallowly embedded below; React state updates become explicit record updates,
the `setInterval` auto-scan effect becomes a subscription record that stores
the closure environment captured when the effect ran (React effect closures
see the state values of the render at which the effect executed, not the
current ones), and the asynchronous inference call becomes a pending-call list
with separate start and completion steps.
-/

namespace CvApp

/-- Modes of the session, `useState<'initial' | 'camera' | 'upload'>`. -/
inductive Mode
  | initial
  | camera
  | upload
deriving DecidableEq, Repr

/-- `useState<'image' | 'video' | null>` values (the `null` case is `Option`). -/
inductive FileType
  | image
  | video
deriving DecidableEq, Repr

/-- Safety classification of a result.
Modelled from the spec: the `SafetyLevel` enum of `types.ts` (not under `src/`);
spec section 3 gives `enum{SAFE,CAUTION,DANGER}`. -/
inductive SafetyLevel
  | SAFE
  | CAUTION
  | DANGER
deriving DecidableEq, Repr

/-- A detected hazard.
Modelled from the spec: part of `AnalysisResult` in `types.ts` (not under
`src/`); spec section 3: `{type, severity: enum{LOW,MEDIUM,HIGH}, description}`. -/
structure Hazard where
  type : String
  severity : String
  description : String
deriving DecidableEq, Repr

/-- A detected traffic sign.
Modelled from the spec: part of `AnalysisResult` in `types.ts` (not under
`src/`); spec section 3: `{type, meaning, location}`. -/
structure Sign where
  type : String
  meaning : String
  location : String
deriving DecidableEq, Repr

/-- The structured inference result.
Modelled from the spec: `AnalysisResult` of `types.ts` (not under `src/`);
spec section 3 lists safetyLevel, recommendation, timestamp, hazards, signs.
Only `safetyLevel` and `recommendation` are read by `App.tsx`. -/
structure AnalysisResult where
  safetyLevel : SafetyLevel
  recommendation : String
  timestamp : String
  hazards : List Hazard
  signs : List Sign
deriving DecidableEq, Repr

/-- A camera `MediaStream` is identified by the ids of its tracks
(`stream.getTracks()`); stopping a track is recorded in a separate
`stopped` set owned by the system state, since tracks are shared
mutable objects. -/
abbrev Stream := List Nat

/-- The React state of the `App` component (the `useState` hooks, in source
order). -/
structure AppState where
  mode : Mode
  fileType : Option FileType
  mediaSource : Option String
  cameraStream : Option Stream
  result : Option AnalysisResult
  analyzing : Bool
  error : Option String
  isVoiceEnabled : Bool
  isAutoScan : Bool
deriving DecidableEq, Repr

/-- The initial hook values: `'initial'`, `null`, `null`, `null`, `null`,
`false`, `null`, `false`, `false`. -/
def initState : AppState :=
  { mode := Mode.initial
    fileType := none
    mediaSource := none
    cameraStream := none
    result := none
    analyzing := false
    error := none
    isVoiceEnabled := false
    isAutoScan := false }

/-- The error message set by the `startCamera` catch block. -/
def cameraErrMsg : String :=
  "Could not access camera. Check permissions or try a different browser."

/-- The error message set by the `captureAndAnalyze` catch block. -/
def analysisErrMsg : String := "Analysis failed. Try again."

/-- `handleFileUpload` (lines 121-136), given that a file was selected:
creates an object URL, sets `mediaSource`, `mode`, clears `result` and
`error`, and sets `fileType` from the file's MIME type.  It does not touch
`cameraStream` and stops no track. -/
def handleFileUpload (s : AppState) (url : String) (isVideo : Bool) : AppState :=
  { s with
      mediaSource := some url
      mode := Mode.upload
      result := none
      error := none
      fileType := some (if isVideo then FileType.video else FileType.image) }

/-- The success path of `startCamera` (lines 73-83): `getUserMedia` resolved
with `stream`. -/
def startCameraOkFn (s : AppState) (stream : Stream) : AppState :=
  { s with
      cameraStream := some stream
      mode := Mode.camera
      fileType := some FileType.video
      error := none
      result := none }

/-- The catch branch of `startCamera` (lines 84-87): only `error` is set. -/
def startCameraFailFn (s : AppState) : AppState :=
  { s with error := some cameraErrMsg }

/-- `stopCamera` (lines 90-98) acting on the state and on the set of stopped
track ids: every track of the held stream is stopped and the handle is
cleared. -/
def stopCameraFn (s : AppState) (stopped : List Nat) : AppState × List Nat :=
  match s.cameraStream with
  | some stream => ({ s with cameraStream := none }, stopped ++ stream)
  | none => (s, stopped)

/-- `reset` (lines 210-218): stop the camera, then reset every state field to
its initial value except `isVoiceEnabled` (which `reset` does not touch). -/
def resetFn (s : AppState) (stopped : List Nat) : AppState × List Nat :=
  let p := stopCameraFn s stopped
  ({ p.1 with
      isAutoScan := false
      mode := Mode.initial
      mediaSource := none
      result := none
      fileType := none
      error := none }, p.2)

/-- The video element behind `videoRef.current`, with its intrinsic
dimensions. -/
structure VideoEl where
  videoWidth : Nat
  videoHeight : Nat
deriving DecidableEq, Repr

/-- The platform environment one `captureAndAnalyze` invocation runs against:
the DOM refs, the 2d-context availability, the JPEG data URL a successful
`canvas.toDataURL` produces, the outcome of the `fetch`+`FileReader` pipeline
of the image path, and the outcome of the `analyzeRoadScene` call. -/
structure CaptureEnv where
  videoEl : Option VideoEl
  canvasEl : Bool
  ctxOk : Bool
  frameData : String
  imageFetch : Except Unit String
  inference : Except Unit AnalysisResult
deriving Repr

/-- Lines 142-174 of `captureAndAnalyze`: compute `imageDataUrl`.  Returns
`none` both when no branch applies and when a branch fails (zero dimensions,
null 2d context, image fetch/decode error) — in every such case the source
returns or falls through with `imageDataUrl` still `null`. -/
def computeImage (fileType : Option FileType) (mediaSource : Option String)
    (env : CaptureEnv) : Option String :=
  if fileType = some FileType.video ∧ env.videoEl.isSome ∧ env.canvasEl then
    match env.videoEl with
    | some v =>
        if v.videoWidth = 0 ∨ v.videoHeight = 0 then none
        else if env.ctxOk then some env.frameData else none
    | none => none
  else if fileType = some FileType.image ∧ mediaSource.isSome then
    match env.imageFetch with
    | Except.ok dataUrl => some dataUrl
    | Except.error _ => none
  else
    none

/-- The outcome of one complete `captureAndAnalyze` invocation: the state
after the handler (and, when a call was made, its continuation) has run, the
`imageDataUrl` that was produced, and whether an inference call was issued. -/
structure CaptureOutcome where
  state : AppState
  image : Option String
  callMade : Bool
deriving Repr

/-- `captureAndAnalyze` (lines 139-190) as a single invocation, run to
completion against `env`.  The guard at line 140 returns early while
`analyzing` is set; otherwise an image is computed and, if one was produced,
`analyzing` is set, `analyzeRoadScene` is awaited, success stores the result
and clears `error`, failure sets `error` only outside auto-scan, and the
`finally` clears `analyzing`. -/
def captureAndAnalyze (s : AppState) (env : CaptureEnv) : CaptureOutcome :=
  if s.analyzing then
    { state := s, image := none, callMade := false }
  else
    match computeImage s.fileType s.mediaSource env with
    | none => { state := s, image := none, callMade := false }
    | some img =>
        match env.inference with
        | Except.ok analysis =>
            { state := { s with result := some analysis, error := none, analyzing := false }
              image := some img
              callMade := true }
        | Except.error _ =>
            { state := { s with
                error := if s.isAutoScan then s.error else some analysisErrMsg
                analyzing := false }
              image := some img
              callMade := true }

/-- `speak` (lines 46-56) acting on the speech-synthesis utterance queue:
a no-op when voice is disabled or `window.speechSynthesis` is absent;
`priority` first cancels everything queued or playing, then the utterance is
enqueued. -/
def speak (isVoiceEnabled hasSynth : Bool) (queue : List String)
    (text : String) (priority : Bool) : List String :=
  if isVoiceEnabled = false ∨ hasSynth = false then queue
  else if priority then [text]
  else queue ++ [text]

/-- The narration effect body (lines 59-70), run when a new result arrives:
DANGER speaks with `priority`, CAUTION speaks normally, SAFE speaks normally
only when auto-scan is off. -/
def narrationEffect (result : Option AnalysisResult)
    (isVoiceEnabled hasSynth isAutoScan : Bool)
    (queue : List String) : List String :=
  match result with
  | none => queue
  | some r =>
      if isVoiceEnabled then
        match r.safetyLevel with
        | SafetyLevel.DANGER =>
            speak isVoiceEnabled hasSynth queue ("Warning. " ++ r.recommendation) true
        | SafetyLevel.CAUTION =>
            speak isVoiceEnabled hasSynth queue ("Caution. " ++ r.recommendation) false
        | SafetyLevel.SAFE =>
            if isAutoScan = false then
              speak isVoiceEnabled hasSynth queue r.recommendation false
            else queue
      else queue

/-- The voice-toggle click handler (lines 362-366): flip the flag, and when
the new state is off (and `window.speechSynthesis` exists) cancel all
speech. -/
def toggleVoice (isVoiceEnabled hasSynth : Bool) (queue : List String) :
    Bool × List String :=
  let newState := !isVoiceEnabled
  (newState, if newState = false ∧ hasSynth = true then [] else queue)

/-! ### Trace semantics

`captureAndAnalyze` is not memoised (`useCallback`) and the auto-scan effect
(lines 193-208) lists only `[isAutoScan, fileType, mediaSource, mode,
cameraStream]` as dependencies.  The `setInterval` callback therefore keeps
invoking the `captureAndAnalyze` instance of the render at which the effect
last ran, whose closed-over `analyzing`, `fileType`, `mediaSource` and
`isAutoScan` are the values of that render; refs (`videoRef`, `canvasRef`)
are mutable boxes and always yield the current DOM elements.  The effect
re-runs — refreshing the closure — exactly when one of its five listed
dependencies changes, which among the modelled events happens for camera
acquisition, file upload, reset and the auto-scan toggle (each changes
`mode`, `cameraStream`, `mediaSource`, `fileType` or `isAutoScan`), and for
no completion, tick or manual-scan event (those change only `analyzing`,
`result` or `error`). -/

/-- The closure environment of a `captureAndAnalyze` instance: the state
values it closed over at its render. -/
structure Closure where
  analyzing : Bool
  fileType : Option FileType
  mediaSource : Option String
  isAutoScan : Bool
deriving DecidableEq, Repr

/-- An active auto-scan subscription: the interval id's callback closure and
the period passed to `window.setInterval` (4000 at line 197). -/
structure ScanInterval where
  closure : Closure
  periodMs : Nat
deriving DecidableEq, Repr

/-- An in-flight `analyzeRoadScene` call; its continuation (lines 180-188)
closed over the `isAutoScan` value of the invoking closure. -/
structure PendingCall where
  snapAutoScan : Bool
deriving DecidableEq, Repr

/-- Whole-system state: React state, the set of stopped camera-track ids,
the in-flight inference calls, and the active auto-scan interval. -/
structure Sys where
  st : AppState
  stopped : List Nat
  pending : List PendingCall
  sub : Option ScanInterval
deriving DecidableEq, Repr

/-- The closure a render of state `s` gives to `captureAndAnalyze`. -/
def snapshotOf (s : AppState) : Closure :=
  { analyzing := s.analyzing
    fileType := s.fileType
    mediaSource := s.mediaSource
    isAutoScan := s.isAutoScan }

/-- Re-run of the auto-scan effect after one of its dependencies changed:
subscribe with the current render's closure when `isAutoScan`, clear the
interval otherwise. -/
def refreshSub (s : AppState) : Option ScanInterval :=
  if s.isAutoScan then some { closure := snapshotOf s, periodMs := 4000 } else none

/-- The synchronous prefix of one `captureAndAnalyze` invocation run by the
closure `cl` (lines 139-177): the early-return guard reads the closed-over
`analyzing`; if an image is produced, the CURRENT `analyzing` state is set
and an inference call (whose continuation remembers `cl.isAutoScan`) is
issued. -/
def captureBeginFn (cl : Closure) (env : CaptureEnv) (sys : Sys) : Sys :=
  if cl.analyzing then sys
  else
    match computeImage cl.fileType cl.mediaSource env with
    | none => sys
    | some _ =>
        { sys with
            st := { sys.st with analyzing := true }
            pending := sys.pending ++ [{ snapAutoScan := cl.isAutoScan }] }

/-- Events of the system: resolutions of the camera-permission request, a
file selection, the reset button, the AUTO toggle, the SCAN button, a
scheduler tick, and success/failure completion of in-flight call `i`. -/
inductive Act
  | startCamOk (stream : Stream)
  | startCamFail
  | uploadFile (url : String) (isVideo : Bool)
  | resetA
  | toggleAuto
  | manualScan (env : CaptureEnv)
  | tick (env : CaptureEnv)
  | completeOk (i : Nat) (r : AnalysisResult)
  | completeFail (i : Nat)

/-- One event of the system.  UI-guarded events apply only when their control
is rendered: the LIVE CAMERA / UPLOAD MEDIA buttons and the hidden file input
are reachable only in `initial` mode (lines 296-312, 349-355); SCAN renders
only when not auto-scanning and is disabled while `analyzing` (lines
316-325); AUTO requires a video source (line 327); reset renders outside
`initial` mode (lines 313-347).  A tick fires only while a subscription is
active, and runs the subscription's stored closure.  Completions apply the
continuation of lines 180-188: success stores the result and clears the
error; failure sets the error only when the call's closed-over `isAutoScan`
was false; both clear `analyzing`.  An event whose guard fails leaves the
system unchanged. -/
def step (sys : Sys) : Act → Sys
  | Act.startCamOk stream =>
      if sys.st.mode = Mode.initial then
        let s2 := startCameraOkFn sys.st stream
        { sys with st := s2, sub := refreshSub s2 }
      else sys
  | Act.startCamFail =>
      if sys.st.mode = Mode.initial then
        { sys with st := startCameraFailFn sys.st }
      else sys
  | Act.uploadFile url isVideo =>
      if sys.st.mode = Mode.initial then
        let s2 := handleFileUpload sys.st url isVideo
        { sys with st := s2, sub := refreshSub s2 }
      else sys
  | Act.resetA =>
      if sys.st.mode ≠ Mode.initial then
        let p := resetFn sys.st sys.stopped
        { sys with st := p.1, stopped := p.2, sub := refreshSub p.1 }
      else sys
  | Act.toggleAuto =>
      if sys.st.mode ≠ Mode.initial ∧ sys.st.fileType = some FileType.video then
        let s2 := { sys.st with isAutoScan := !sys.st.isAutoScan }
        { sys with st := s2, sub := refreshSub s2 }
      else sys
  | Act.manualScan env =>
      if sys.st.mode ≠ Mode.initial ∧ sys.st.isAutoScan = false
          ∧ sys.st.analyzing = false then
        captureBeginFn (snapshotOf sys.st) env sys
      else sys
  | Act.tick env =>
      match sys.sub with
      | some itv => captureBeginFn itv.closure env sys
      | none => sys
  | Act.completeOk i r =>
      if i < sys.pending.length then
        { sys with
            pending := sys.pending.eraseIdx i
            st := { sys.st with result := some r, error := none, analyzing := false } }
      else sys
  | Act.completeFail i =>
      match sys.pending[i]? with
      | some c =>
          { sys with
              pending := sys.pending.eraseIdx i
              st := { sys.st with
                  error := if c.snapAutoScan then sys.st.error else some analysisErrMsg
                  analyzing := false } }
      | none => sys

/-- The mounted component before any event. -/
def initSys : Sys :=
  { st := initState, stopped := [], pending := [], sub := none }

/-- Run a list of events from the mounted component. -/
def runTrace (acts : List Act) : Sys :=
  acts.foldl step initSys

/-- States reachable from the mounted component. -/
inductive Reachable : Sys → Prop
  | init : Reachable initSys
  | next (s : Sys) (a : Act) : Reachable s → Reachable (step s a)

/-! ### Concrete states and environments used to instantiate the theorems -/

/-- An environment with a ready camera video element (640x480), a canvas, a
working 2d context; the inference service is down. -/
def envReady : CaptureEnv :=
  { videoEl := some { videoWidth := 640, videoHeight := 480 }
    canvasEl := true
    ctxOk := true
    frameData := "data:image/jpeg;base64,frame"
    imageFetch := Except.error ()
    inference := Except.error () }

/-- An environment whose video element reports zero dimensions (stream not
yet ready). -/
def envZero : CaptureEnv :=
  { envReady with videoEl := some { videoWidth := 0, videoHeight := 0 } }

/-- An environment for the uploaded-image path: the fetch+decode pipeline
succeeds, the inference service is down. -/
def envImageFail : CaptureEnv :=
  { videoEl := none
    canvasEl := true
    ctxOk := true
    frameData := "data:image/jpeg;base64,frame"
    imageFetch := Except.ok "data:image/png;base64,photo"
    inference := Except.error () }

/-- A session state in camera mode holding a live one-track stream. -/
def sCam : AppState :=
  { initState with
      mode := Mode.camera
      fileType := some FileType.video
      cameraStream := some [0] }

/-- An uploaded-image session state. -/
def sImage : AppState :=
  { initState with
      mode := Mode.upload
      fileType := some FileType.image
      mediaSource := some "blob:photo" }

/-- The system after the camera permission resolved with a two-track
stream. -/
def sysCam1 : Sys :=
  step initSys (Act.startCamOk [0, 1])

/-- A camera-mode system with one inference call in flight. -/
def sysPending : Sys :=
  { st := { sCam with analyzing := true }
    stopped := []
    pending := [{ snapAutoScan := false }]
    sub := none }

/-- A concrete DANGER result. -/
def resultDanger : AnalysisResult :=
  { safetyLevel := SafetyLevel.DANGER
    recommendation := "Stop now"
    timestamp := "t0"
    hazards := []
    signs := [] }

/-! ### Invariant lemmas -/

/-- `captureAndAnalyze` never touches the camera handle. -/
theorem captureBegin_cameraStream (cl : Closure) (env : CaptureEnv) (sys : Sys) :
    (captureBeginFn cl env sys).st.cameraStream = sys.st.cameraStream := by
  unfold captureBeginFn
  split
  · rfl
  · split <;> rfl

/-- `captureAndAnalyze` never changes the mode. -/
theorem captureBegin_mode (cl : Closure) (env : CaptureEnv) (sys : Sys) :
    (captureBeginFn cl env sys).st.mode = sys.st.mode := by
  unfold captureBeginFn
  split
  · rfl
  · split <;> rfl

/-- In every reachable state, a held camera stream implies camera mode:
source selection is only offered in `initial` mode, `startCamera` enters
camera mode as it stores the stream, and `reset` clears the handle as it
leaves camera mode. -/
theorem reachable_cam_mode (s : Sys) (h : Reachable s) :
    s.st.cameraStream ≠ none → s.st.mode = Mode.camera := by
  induction h with
  | init => intro hc; exact absurd rfl hc
  | next s a _ ih =>
    cases a with
    | startCamOk stream =>
      by_cases hg : s.st.mode = Mode.initial
      · intro _; simp [step, hg, startCameraOkFn]
      · simpa [step, hg] using ih
    | startCamFail =>
      by_cases hg : s.st.mode = Mode.initial
      · simpa [step, hg, startCameraFailFn] using ih
      · simpa [step, hg] using ih
    | uploadFile url isVideo =>
      by_cases hg : s.st.mode = Mode.initial
      · intro hc
        simp only [step, if_pos hg, handleFileUpload] at hc ⊢
        exact absurd (ih hc) (by rw [hg]; decide)
      · simpa [step, hg] using ih
    | resetA =>
      by_cases hg : s.st.mode ≠ Mode.initial
      · cases hcs : s.st.cameraStream <;>
          simp [step, hg, resetFn, stopCameraFn, hcs]
      · simpa [step, hg] using ih
    | toggleAuto =>
      by_cases hg : s.st.mode ≠ Mode.initial ∧ s.st.fileType = some FileType.video
      · simpa [step, hg] using ih
      · simpa [step, hg] using ih
    | manualScan env =>
      by_cases hg : s.st.mode ≠ Mode.initial ∧ s.st.isAutoScan = false
          ∧ s.st.analyzing = false
      · simp only [step, if_pos hg]
        rw [captureBegin_cameraStream, captureBegin_mode]
        exact ih
      · simpa [step, hg] using ih
    | tick env =>
      cases hsub : s.sub with
      | none => simpa [step, hsub] using ih
      | some itv =>
        simp only [step, hsub]
        rw [captureBegin_cameraStream, captureBegin_mode]
        exact ih
    | completeOk i r =>
      by_cases hg : i < s.pending.length
      · simpa [step, hg] using ih
      · simpa [step, hg] using ih
    | completeFail i =>
      cases hc : s.pending[i]? <;> simpa [step, hc] using ih

/-! ### The claims -/

/-- Claim C1 (amended): the switch handlers themselves do not release the
camera stream, but in every reachable state the source-switch controls are
only available where no camera stream is held, and `reset` (the only way back
to source selection) stops every track of a held stream.  Concretely: a held
stream implies camera mode; after a file-upload event the system holds no
camera stream; and every track of a held stream is stopped by reset. -/
theorem claim1_release (s : Sys) (url : String) (isVideo : Bool)
    (stream : Stream) (t : Nat) (h : Reachable s) :
    (s.st.mode ≠ Mode.camera → s.st.cameraStream = none)
    ∧ ((step s (Act.uploadFile url isVideo)).st.mode = Mode.upload →
        (step s (Act.uploadFile url isVideo)).st.cameraStream = none)
    ∧ (s.st.cameraStream = some stream → t ∈ stream →
        t ∈ (step s Act.resetA).stopped) := by
  have inv := reachable_cam_mode s h
  refine ⟨?_, ?_, ?_⟩
  · intro hm
    by_contra hc
    exact hm (inv hc)
  · by_cases hg : s.st.mode = Mode.initial
    · intro _
      simp only [step, if_pos hg, handleFileUpload]
      by_contra hc
      exact absurd (inv hc) (by rw [hg]; decide)
    · simp only [step, if_neg hg]
      intro hm
      by_contra hc
      exact absurd (inv hc) (by rw [hm]; decide)
  · intro hcs ht
    have hmode : s.st.mode = Mode.camera := inv (by rw [hcs]; exact Option.some_ne_none _)
    have hg : s.st.mode ≠ Mode.initial := by rw [hmode]; decide
    simp only [step, if_pos hg, resetFn, stopCameraFn, hcs]
    exact List.mem_append_right _ ht

/-- Claim C1 witness: from the reachable camera state with stream `[0, 1]`,
reset stops track 0. -/
theorem claim1_witness : 0 ∈ (step sysCam1 Act.resetA).stopped :=
  (claim1_release sysCam1 "blob:a" false [0, 1] 0
    (Reachable.next initSys (Act.startCamOk [0, 1]) Reachable.init)).2.2 rfl
    (by decide)

/-- Claim C1 counterexample: the upload switch handler as written does not
release a held camera stream — applied to a camera-mode state holding stream
`[0]`, `handleFileUpload` activates the upload source while the camera stream
is still held (and, since the handler has no track-stop effect, its track is
never stopped). -/
theorem claim1_counterexample :
    (handleFileUpload sCam "blob:upload" false).mode = Mode.upload
    ∧ (handleFileUpload sCam "blob:upload" false).mediaSource = some "blob:upload"
    ∧ (handleFileUpload sCam "blob:upload" false).cameraStream = some [0] :=
  ⟨rfl, rfl, rfl⟩

/-- Claim C2: refuting trace.  Enable auto-scan on a live camera; the first
scheduler tick starts an inference call (`analyzing` becomes true, one call
in flight), yet the next tick issues a second call while the first is still
in flight, because the interval callback closed over `analyzing = false` at
the render where the effect ran and the effect's dependency list omits
`analyzing`/`captureAndAnalyze`.  Two calls are then in flight at once. -/
theorem claim2_overlap :
    (runTrace [Act.startCamOk [0], Act.toggleAuto, Act.tick envReady]).st.analyzing = true
    ∧ (runTrace [Act.startCamOk [0], Act.toggleAuto, Act.tick envReady]).pending.length = 1
    ∧ (runTrace [Act.startCamOk [0], Act.toggleAuto, Act.tick envReady,
        Act.tick envReady]).pending.length = 2 :=
  ⟨rfl, rfl, rfl⟩

/-- Claim C8: the interval period is the fixed 4000 ms from the source, but a
tick that falls while a call is in flight is NOT skipped: with one call in
flight after the first tick, the following tick adds a second in-flight call
(the stored closure still reads `analyzing = false`). -/
theorem claim8_tick_not_skipped :
    (runTrace [Act.startCamOk [0, 1], Act.toggleAuto]).sub =
      some { closure :=
              { analyzing := false
                fileType := some FileType.video
                mediaSource := none
                isAutoScan := true }
             periodMs := 4000 }
    ∧ (runTrace [Act.startCamOk [0, 1], Act.toggleAuto, Act.tick envReady]).pending.length = 1
    ∧ (step (runTrace [Act.startCamOk [0, 1], Act.toggleAuto, Act.tick envReady])
        (Act.tick envReady)).pending.length = 2 :=
  ⟨rfl, rfl, rfl⟩

/-- `reset` does not touch the in-flight call list: no cancellation. -/
theorem step_resetA_pending (s : Sys) : (step s Act.resetA).pending = s.pending := by
  by_cases hg : s.st.mode ≠ Mode.initial <;> simp [step, hg]

/-- A file-upload event does not touch the in-flight call list. -/
theorem step_upload_pending (s : Sys) (url : String) (isVideo : Bool) :
    (step s (Act.uploadFile url isVideo)).pending = s.pending := by
  by_cases hg : s.st.mode = Mode.initial <;> simp [step, hg]

/-- A successful completion applies its result to the state unconditionally. -/
theorem step_completeOk_result (s : Sys) (r : AnalysisResult)
    (h : 0 < s.pending.length) :
    (step s (Act.completeOk 0 r)).st.result = some r := by
  simp [step, h]

/-- Claim C7: an in-flight call survives a reset (and a subsequent source
switch): the pending list is untouched by `reset`, and when the call later
completes successfully its result is applied to the session state — there is
no stale-result guard. -/
theorem claim7_no_cancel (s : Sys) (c : PendingCall) (r : AnalysisResult)
    (hp : s.pending = [c]) (hm : s.st.mode ≠ Mode.initial) :
    (step s Act.resetA).pending = [c]
    ∧ (step (step s Act.resetA) (Act.completeOk 0 r)).st.result = some r
    ∧ (step (step (step s Act.resetA) (Act.uploadFile "blob:next" true))
        (Act.completeOk 0 r)).st.result = some r := by
  have hpend : (step s Act.resetA).pending = [c] := by
    rw [step_resetA_pending]
    exact hp
  have hpend2 :
      (step (step s Act.resetA) (Act.uploadFile "blob:next" true)).pending = [c] := by
    rw [step_upload_pending]
    exact hpend
  refine ⟨hpend, ?_, ?_⟩
  · exact step_completeOk_result _ r (by rw [hpend]; simp)
  · exact step_completeOk_result _ r (by rw [hpend2]; simp)

/-- Claim C7 witness: a camera session with one call in flight; after reset,
the call is still pending and its successful completion stores the DANGER
result. -/
theorem claim7_witness :
    (step sysPending Act.resetA).pending = [{ snapAutoScan := false }]
    ∧ (step (step sysPending Act.resetA)
        (Act.completeOk 0 resultDanger)).st.result = some resultDanger
    ∧ (step (step (step sysPending Act.resetA) (Act.uploadFile "blob:next" true))
        (Act.completeOk 0 resultDanger)).st.result = some resultDanger :=
  claim7_no_cancel sysPending { snapAutoScan := false } resultDanger rfl (by decide)

/-- Claim C3: narration of a new result with voice enabled (and speech
synthesis available): DANGER cancels whatever is queued or playing and
speaks the warning alone; CAUTION appends without cancelling; SAFE appends
only when auto-scan is off and is suppressed while auto-scan is on. -/
theorem claim3_narration (r : AnalysisResult) (autoScan : Bool) (q : List String) :
    (r.safetyLevel = SafetyLevel.DANGER →
        narrationEffect (some r) true true autoScan q
          = ["Warning. " ++ r.recommendation])
    ∧ (r.safetyLevel = SafetyLevel.CAUTION →
        narrationEffect (some r) true true autoScan q
          = q ++ ["Caution. " ++ r.recommendation])
    ∧ (r.safetyLevel = SafetyLevel.SAFE → autoScan = false →
        narrationEffect (some r) true true autoScan q = q ++ [r.recommendation])
    ∧ (r.safetyLevel = SafetyLevel.SAFE → autoScan = true →
        narrationEffect (some r) true true autoScan q = q) := by
  refine ⟨fun h => ?_, fun h => ?_, fun h ha => ?_, fun h ha => ?_⟩
  · simp [narrationEffect, speak, h]
  · simp [narrationEffect, speak, h]
  · simp [narrationEffect, speak, h, ha]
  · simp [narrationEffect, speak, h, ha]

/-- Claim C3 witness: a DANGER result interrupts a playing narration. -/
theorem claim3_witness :
    narrationEffect (some resultDanger) true true false ["previous narration"]
      = ["Warning. Stop now"] :=
  (claim3_narration resultDanger false ["previous narration"]).1 rfl

/-- Claim C4: a capture attempt on a video source whose element reports zero
width or height produces no image, makes no inference call, and leaves the
whole session state unchanged. -/
theorem claim4_zero_dims (s : AppState) (env : CaptureEnv) (v : VideoEl)
    (hft : s.fileType = some FileType.video)
    (hv : env.videoEl = some v)
    (hdim : v.videoWidth = 0 ∨ v.videoHeight = 0)
    (hcv : env.canvasEl = true) :
    (captureAndAnalyze s env).image = none
    ∧ (captureAndAnalyze s env).callMade = false
    ∧ (captureAndAnalyze s env).state = s := by
  have hci : computeImage s.fileType s.mediaSource env = none := by
    rcases hdim with h0 | h0 <;> simp [computeImage, hft, hv, hcv, h0]
  cases ha : s.analyzing <;> simp [captureAndAnalyze, ha, hci]

/-- Claim C4 witness: the camera state against a zero-dimension element. -/
theorem claim4_witness :
    (captureAndAnalyze sCam envZero).image = none
    ∧ (captureAndAnalyze sCam envZero).callMade = false
    ∧ (captureAndAnalyze sCam envZero).state = sCam :=
  claim4_zero_dims sCam envZero { videoWidth := 0, videoHeight := 0 }
    rfl rfl (Or.inl rfl) rfl

/-- Claim C5: when an image was captured, a failing inference sets the
user-visible notice exactly when auto-scan is off (leaving the notice alone
while auto-scan is on), a successful inference clears any notice, and a
camera permission failure sets its own notice. -/
theorem claim5_error_notice (s : AppState) (env : CaptureEnv) (img : String)
    (r : AnalysisResult)
    (ha : s.analyzing = false)
    (hi : computeImage s.fileType s.mediaSource env = some img) :
    (env.inference = Except.error () → s.isAutoScan = false →
        (captureAndAnalyze s env).state.error = some analysisErrMsg)
    ∧ (env.inference = Except.error () → s.isAutoScan = true →
        (captureAndAnalyze s env).state.error = s.error)
    ∧ (env.inference = Except.ok r →
        (captureAndAnalyze s env).state.error = none)
    ∧ (startCameraFailFn s).error = some cameraErrMsg := by
  refine ⟨fun hf hs => ?_, fun hf hs => ?_, fun hok => ?_, rfl⟩
  · simp [captureAndAnalyze, ha, hi, hf, hs]
  · simp [captureAndAnalyze, ha, hi, hf, hs]
  · simp [captureAndAnalyze, ha, hi, hok]

/-- Claim C5 witness: an uploaded image whose analysis fails outside
auto-scan surfaces the notice. -/
theorem claim5_witness :
    (captureAndAnalyze sImage envImageFail).state.error = some analysisErrMsg :=
  (claim5_error_notice sImage envImageFail "data:image/png;base64,photo"
    resultDanger rfl rfl).1 rfl rfl

/-- Claim C6: every failure leaves the prior stable state: when no call was
made the state is untouched; when the inference call fails, `result`,
`mode` and `mediaSource` are unchanged and `analyzing` ends false; a camera
permission failure changes none of them either. -/
theorem claim6_stable (s : AppState) (env : CaptureEnv)
    (ha : s.analyzing = false) :
    ((captureAndAnalyze s env).callMade = false → (captureAndAnalyze s env).state = s)
    ∧ (env.inference = Except.error () →
        (captureAndAnalyze s env).state.result = s.result
        ∧ (captureAndAnalyze s env).state.mode = s.mode
        ∧ (captureAndAnalyze s env).state.mediaSource = s.mediaSource
        ∧ (captureAndAnalyze s env).state.analyzing = false)
    ∧ ((startCameraFailFn s).result = s.result
        ∧ (startCameraFailFn s).mode = s.mode
        ∧ (startCameraFailFn s).mediaSource = s.mediaSource
        ∧ (startCameraFailFn s).analyzing = false) := by
  refine ⟨fun hc => ?_, fun hf => ?_, rfl, rfl, rfl, ha⟩
  · cases hci : computeImage s.fileType s.mediaSource env with
    | none => simp [captureAndAnalyze, ha, hci]
    | some img =>
      exfalso
      cases hinf : env.inference <;>
        simp [captureAndAnalyze, ha, hci, hinf] at hc
  · cases hci : computeImage s.fileType s.mediaSource env <;>
      simp [captureAndAnalyze, ha, hci, hf]

/-- Claim C6 witness: the uploaded-image state against a failing service. -/
theorem claim6_witness :
    ((captureAndAnalyze sImage envImageFail).callMade = false →
        (captureAndAnalyze sImage envImageFail).state = sImage)
    ∧ (envImageFail.inference = Except.error () →
        (captureAndAnalyze sImage envImageFail).state.result = sImage.result
        ∧ (captureAndAnalyze sImage envImageFail).state.mode = sImage.mode
        ∧ (captureAndAnalyze sImage envImageFail).state.mediaSource = sImage.mediaSource
        ∧ (captureAndAnalyze sImage envImageFail).state.analyzing = false)
    ∧ ((startCameraFailFn sImage).result = sImage.result
        ∧ (startCameraFailFn sImage).mode = sImage.mode
        ∧ (startCameraFailFn sImage).mediaSource = sImage.mediaSource
        ∧ (startCameraFailFn sImage).analyzing = false) :=
  claim6_stable sImage envImageFail rfl

/-- Claim C9: toggling voice off flips the flag and cancels all speech, and
while voice is disabled neither the narration effect (for any result,
DANGER included) nor `speak` itself produces any utterance. -/
theorem claim9_voice_off (q q2 : List String) (autoScan : Bool)
    (r : Option AnalysisResult) (text : String) (priority : Bool) :
    (toggleVoice true true q).1 = false
    ∧ (toggleVoice true true q).2 = []
    ∧ narrationEffect r false true autoScan q2 = q2
    ∧ speak false true q2 text priority = q2 := by
  refine ⟨rfl, rfl, ?_, ?_⟩
  · cases r <;> simp [narrationEffect]
  · simp [speak]

/-- Claim C10: with no capturable source — no file type, image mode without a
media source, or video mode without a video element — `captureAndAnalyze` is
a complete no-op: no image, no call, state untouched. -/
theorem claim10_no_source (s : AppState) (env : CaptureEnv)
    (hcase : s.fileType = none
      ∨ (s.fileType = some FileType.image ∧ s.mediaSource = none)
      ∨ (s.fileType = some FileType.video ∧ env.videoEl = none)) :
    (captureAndAnalyze s env).callMade = false
    ∧ (captureAndAnalyze s env).state = s
    ∧ (captureAndAnalyze s env).image = none := by
  have hci : computeImage s.fileType s.mediaSource env = none := by
    rcases hcase with h | ⟨h1, h2⟩ | ⟨h1, h2⟩ <;> simp [computeImage, *]
  cases ha : s.analyzing <;> simp [captureAndAnalyze, ha, hci]

/-- Claim C10 witness: the freshly mounted state has no file type, so a
capture attempt does nothing. -/
theorem claim10_witness :
    (captureAndAnalyze initState envReady).callMade = false
    ∧ (captureAndAnalyze initState envReady).state = initState
    ∧ (captureAndAnalyze initState envReady).image = none :=
  claim10_no_source initState envReady (Or.inl rfl)

end CvApp
